import Mathlib

/-!
Shallow embedding of the room-matchmaking core of `app/model.py`.

The store is the relational state the code manipulates: the `user`,
`room` and `room_user` tables plus the auto-increment counter for
`room.room_id`.  Each operation of the model is translated as a pure
function from a `Store` (and its arguments) to a result and the store
after commit; a path that runs `conn.rollback()` and returns a value
yields the original store unchanged.  Python exceptions that can escape
the function (`InvalidToken`, SQLAlchemy's `NoResultFound` and
`MultipleResultsFound` when uncaught) are modelled with `Except PyExc`.
-/

namespace GameServer

/-- `MAX_ROOM_USER_COUNT = 4` in `model.py`. -/
def MAX_ROOM_USER_COUNT : Nat := 4

/-- `LIVE_ID_NULL = 0` in `model.py`: the sentinel meaning "no track filter". -/
def LIVE_ID_NULL : Nat := 0

/-- `class LiveDifficulty(IntEnum): Normal = 1; Hard = 2`. -/
inductive LiveDifficulty where
  | Normal
  | Hard
deriving DecidableEq, Repr

/-- `int(select_difficulty)` — the integer stored in the database. -/
def LiveDifficulty.toNat : LiveDifficulty → Nat
  | .Normal => 1
  | .Hard => 2

/-- A row of the `user` table: `id`, `name`, `token`, `leader_card_id`. -/
structure UserRow where
  id : Nat
  name : String
  token : String
  leader_card_id : Nat
deriving DecidableEq, Repr

/-- `class SafeUser`: the token-free projection of a user row. -/
structure SafeUser where
  id : Nat
  name : String
  leader_card_id : Nat
deriving DecidableEq, Repr

/-- A row of the `room` table: `room_id`, `live_id`, `joined_user_count`,
`max_user_count`, `is_playing`. -/
structure RoomRow where
  room_id : Nat
  live_id : Nat
  joined_user_count : Nat
  max_user_count : Nat
  is_playing : Bool
deriving DecidableEq, Repr

/-- A row of the `room_user` table: `room_id`, `user_id`,
`select_difficulty`, `is_host`.  The difficulty column holds the
`IntEnum` value; every write comes from `int(select_difficulty)`, so we
keep the enum itself. -/
structure RoomUserRow where
  room_id : Nat
  user_id : Nat
  select_difficulty : LiveDifficulty
  is_host : Bool
deriving DecidableEq, Repr

/-- The database state: the three tables and the auto-increment counter
that assigns `room_id` on insert (MySQL starts at 1). -/
structure Store where
  users : List UserRow
  rooms : List RoomRow
  room_users : List RoomUserRow
  next_room_id : Nat
deriving DecidableEq, Repr

/-- Python exceptions that can escape the model functions:
`InvalidToken` raised on an unresolvable token, and SQLAlchemy's
`NoResultFound` / `MultipleResultsFound` when `.one()` is called outside
a `try` that catches them. -/
inductive PyExc where
  | invalidToken
  | noResultFound
  | multipleResultsFound
deriving DecidableEq, Repr

/-- SQLAlchemy `result.one()`: exactly one row yields the row, zero rows
raise `NoResultFound`, two or more raise `MultipleResultsFound`. -/
def resultOne {α : Type} : List α → Except PyExc α
  | [] => .error .noResultFound
  | [r] => .ok r
  | _ :: _ :: _ => .error .multipleResultsFound

/-- `_get_user_by_token`: `SELECT id, name, leader_card_id FROM user
WHERE token=:token` then `.one()`, catching only `NoResultFound` (which
becomes `None`). -/
def get_user_by_token (s : Store) (token : String) : Except PyExc (Option SafeUser) :=
  match resultOne (s.users.filter (fun u => u.token == token)) with
  | .ok u => .ok (some { id := u.id, name := u.name, leader_card_id := u.leader_card_id })
  | .error .noResultFound => .ok none
  | .error e => .error e

/-- `_create_room`: resolve the token (raise `InvalidToken` if it does
not resolve), insert a `room` row with `joined_user_count = 1` and
`max_user_count = MAX_ROOM_USER_COUNT`, then insert the creator's
`room_user` row with `is_host = true`; returns `lastrowid`. -/
def create_room (s : Store) (token : String) (live_id : Nat)
    (select_difficulty : LiveDifficulty) : Except PyExc (Nat × Store) :=
  match get_user_by_token s token with
  | .error e => .error e
  | .ok none => .error .invalidToken
  | .ok (some user) =>
    let room_id := s.next_room_id
    let s1 : Store :=
      { s with
        rooms := s.rooms ++
          [{ room_id := room_id, live_id := live_id, joined_user_count := 1,
             max_user_count := MAX_ROOM_USER_COUNT, is_playing := false }],
        room_users := s.room_users ++
          [{ room_id := room_id, user_id := user.id,
             select_difficulty := select_difficulty, is_host := true }],
        next_room_id := s.next_room_id + 1 }
    .ok (room_id, s1)

/-- `class RoomInfo`: the projection returned by `_list_room`. -/
structure RoomInfo where
  room_id : Nat
  live_id : Nat
  joined_user_count : Nat
  max_user_count : Nat
deriving DecidableEq, Repr

/-- The `RoomInfo` projection of a `room` row. -/
def RoomRow.toRoomInfo (r : RoomRow) : RoomInfo :=
  { room_id := r.room_id, live_id := r.live_id,
    joined_user_count := r.joined_user_count, max_user_count := r.max_user_count }

/-- `_list_room`: with `live_id = LIVE_ID_NULL` selects every room with
`joined_user_count < max_user_count AND is_playing = false`; otherwise
adds the conjunct `live_id = :live_id`. -/
def list_room (s : Store) (live_id : Nat) : List RoomInfo :=
  if live_id == LIVE_ID_NULL then
    (s.rooms.filter (fun r =>
      decide (r.joined_user_count < r.max_user_count) && !r.is_playing)).map
      RoomRow.toRoomInfo
  else
    (s.rooms.filter (fun r =>
      decide (r.joined_user_count < r.max_user_count) && r.live_id == live_id
        && !r.is_playing)).map RoomRow.toRoomInfo

/-- `class JoinRoomResult(IntEnum)`. -/
inductive JoinRoomResult where
  | Ok
  | RoomFull
  | Disbanded
  | OtherError
deriving DecidableEq, Repr

/-- `_join_room`: resolve the token (raise `InvalidToken` if it does not
resolve); `SELECT joined_user_count, max_user_count FROM room WHERE
room_id=:room_id AND is_playing=false FOR UPDATE` then `.one()` catching
only `NoResultFound` (rollback, `Disbanded`); if
`joined_user_count >= max_user_count` rollback and return `RoomFull`;
insert the `room_user` row with `is_host = false`; then
`SELECT user_id FROM room_user WHERE user_id=:user_id` and `.one()`
catching only `NoResultFound` (rollback, `OtherError`); commit and
return `Ok`.  Note the code never updates `joined_user_count`, and
`.one()` on two or more rows raises `MultipleResultsFound`, which the
`except NoResultFound` clause does not catch. -/
def join_room (s : Store) (token : String) (room_id : Nat)
    (select_difficulty : LiveDifficulty) : Except PyExc (JoinRoomResult × Store) :=
  match get_user_by_token s token with
  | .error e => .error e
  | .ok none => .error .invalidToken
  | .ok (some user) =>
    match resultOne (s.rooms.filter (fun r => r.room_id == room_id && !r.is_playing)) with
    | .error .noResultFound => .ok (.Disbanded, s)
    | .error e => .error e
    | .ok row =>
      if row.joined_user_count ≥ row.max_user_count then
        .ok (.RoomFull, s)
      else
        let s1 : Store :=
          { s with room_users := s.room_users ++
              [{ room_id := room_id, user_id := user.id,
                 select_difficulty := select_difficulty, is_host := false }] }
        match resultOne (s1.room_users.filter (fun ru => ru.user_id == user.id)) with
        | .error .noResultFound => .ok (.OtherError, s)
        | .error e => .error e
        | .ok _ => .ok (.Ok, s1)

/-- `class WaitRoomStatus(IntEnum)`. -/
inductive WaitRoomStatus where
  | Waiting
  | LiveStart
  | Dissolution
deriving DecidableEq, Repr

/-- `class RoomUser`: one member entry of a wait response. -/
structure RoomUser where
  user_id : Nat
  name : String
  leader_card_id : Nat
  select_difficulty : LiveDifficulty
  is_me : Bool
  is_host : Bool
deriving DecidableEq, Repr

/-- `class WaitRoomResult`. -/
structure WaitRoomResult where
  status : WaitRoomStatus
  room_user_list : List RoomUser
deriving DecidableEq, Repr

/-- `SELECT name, leader_card_id FROM user WHERE id=:user_id` followed by
`.one()` with no `try`: zero rows raise `NoResultFound`, two or more
raise `MultipleResultsFound`. -/
def selectUserById (s : Store) (uid : Nat) : Except PyExc UserRow :=
  resultOne (s.users.filter (fun u => u.id == uid))

/-- `_wait_room`: resolve the token (raise `InvalidToken` if it does not
resolve); `SELECT is_playing FROM room WHERE room_id=:room_id` with
`.one()` catching only `NoResultFound` (rollback, status `Dissolution`
with an empty list); read the `room_user` rows of the room; for each row
compute `is_me` by comparing to the caller's id and look the user row up
with the bound parameter `"user_id": room_id` — the source passes the
room id, not the row's `user_id`; finally status `LiveStart` if
`is_playing` else `Waiting`. -/
def wait_room (s : Store) (token : String) (room_id : Nat) :
    Except PyExc WaitRoomResult :=
  match get_user_by_token s token with
  | .error e => .error e
  | .ok none => .error .invalidToken
  | .ok (some user) =>
    match resultOne (s.rooms.filter (fun r => r.room_id == room_id)) with
    | .error .noResultFound => .ok { status := .Dissolution, room_user_list := [] }
    | .error e => .error e
    | .ok room => do
      let rows := s.room_users.filter (fun ru => ru.room_id == room_id)
      let room_user_list ← rows.mapM (fun ru => do
        let u ← selectUserById s room_id
        pure ({ user_id := ru.user_id, name := u.name,
                leader_card_id := u.leader_card_id,
                select_difficulty := ru.select_difficulty,
                is_me := ru.user_id == user.id, is_host := ru.is_host } : RoomUser))
      if room.is_playing then
        .ok { status := .LiveStart, room_user_list := room_user_list }
      else
        .ok { status := .Waiting, room_user_list := room_user_list }

/-- `_start_room`: `UPDATE room SET is_playing=true WHERE
room_id=:room_id`; no token, no read, no error path. -/
def start_room (s : Store) (room_id : Nat) : Store :=
  { s with rooms := s.rooms.map (fun r =>
      if r.room_id == room_id then { r with is_playing := true } else r) }

/-! Concrete stores used as inputs for the evaluations below. -/

/-- Registered user with id 1, token `"a"`. -/
def userA : UserRow := { id := 1, name := "alice", token := "a", leader_card_id := 10 }

/-- Registered user with id 2, token `"b"`. -/
def userB : UserRow := { id := 2, name := "bob", token := "b", leader_card_id := 20 }

/-- Registered user with id 3, token `"c"`. -/
def userC : UserRow := { id := 3, name := "carol", token := "c", leader_card_id := 30 }

/-- Fresh store: two registered users, no rooms. -/
def storeAB : Store := { users := [userA, userB], rooms := [], room_users := [], next_room_id := 1 }

/-- `storeAB` after `create_room` by `"a"` on track 1001: room 1 with
`joined_user_count = 1` and the host membership. -/
def storeAB1 : Store :=
  { users := [userA, userB],
    rooms := [{ room_id := 1, live_id := 1001, joined_user_count := 1,
                max_user_count := 4, is_playing := false }],
    room_users := [{ room_id := 1, user_id := 1,
                     select_difficulty := .Normal, is_host := true }],
    next_room_id := 2 }

/-- `storeAB1` after `join_room` by `"b"`: a second membership row for
room 1 while `joined_user_count` is still 1. -/
def storeAB2 : Store :=
  { users := [userA, userB],
    rooms := [{ room_id := 1, live_id := 1001, joined_user_count := 1,
                max_user_count := 4, is_playing := false }],
    room_users := [{ room_id := 1, user_id := 1,
                     select_difficulty := .Normal, is_host := true },
                   { room_id := 1, user_id := 2,
                     select_difficulty := .Hard, is_host := false }],
    next_room_id := 2 }

/-- One registered user and one room that is already playing and has
spare capacity (1 of 4 seats taken). -/
def storePlaying : Store :=
  { users := [userA],
    rooms := [{ room_id := 1, live_id := 5, joined_user_count := 1,
                max_user_count := 4, is_playing := true }],
    room_users := [{ room_id := 1, user_id := 9,
                     select_difficulty := .Normal, is_host := true }],
    next_room_id := 2 }

/-- One registered user and one open room whose `joined_user_count` has
reached `max_user_count`. -/
def storeFull : Store :=
  { users := [userA],
    rooms := [{ room_id := 1, live_id := 5, joined_user_count := 4,
                max_user_count := 4, is_playing := false }],
    room_users := [],
    next_room_id := 2 }

/-- User 2 is already seated in room 1; room 2 is open with spare
capacity. -/
def storeDup : Store :=
  { users := [userA, userB],
    rooms := [{ room_id := 1, live_id := 5, joined_user_count := 1,
                max_user_count := 4, is_playing := false },
              { room_id := 2, live_id := 5, joined_user_count := 1,
                max_user_count := 4, is_playing := false }],
    room_users := [{ room_id := 1, user_id := 2,
                     select_difficulty := .Normal, is_host := false }],
    next_room_id := 3 }

/-- Room 1 has exactly one seat left (`joined_user_count = 3` of 4) and
three seated members; users 2 and 3 are registered and unseated. -/
def storeNearFull : Store :=
  { users := [userA, userB, userC],
    rooms := [{ room_id := 1, live_id := 5, joined_user_count := 3,
                max_user_count := 4, is_playing := false }],
    room_users := [{ room_id := 1, user_id := 101,
                     select_difficulty := .Normal, is_host := true },
                   { room_id := 1, user_id := 102,
                     select_difficulty := .Normal, is_host := false },
                   { room_id := 1, user_id := 103,
                     select_difficulty := .Hard, is_host := false }],
    next_room_id := 2 }

/-- `storeNearFull` after user 2 joins room 1. -/
def storeNearFull1 : Store :=
  { storeNearFull with
    room_users := storeNearFull.room_users ++
      [{ room_id := 1, user_id := 2, select_difficulty := .Normal, is_host := false }] }

/-- `storeNearFull1` after user 3 also joins room 1. -/
def storeNearFull2 : Store :=
  { storeNearFull1 with
    room_users := storeNearFull1.room_users ++
      [{ room_id := 1, user_id := 3, select_difficulty := .Normal, is_host := false }] }

/-- Room 2 whose only member is user 1 (named "alice"); a distinct user
whose id equals the room id (user 2, named "bob") is also registered. -/
def storeWait : Store :=
  { users := [userA, userB],
    rooms := [{ room_id := 2, live_id := 5, joined_user_count := 1,
                max_user_count := 4, is_playing := false }],
    room_users := [{ room_id := 2, user_id := 1,
                     select_difficulty := .Normal, is_host := true }],
    next_room_id := 3 }

/-- One registered user and no rooms at all. -/
def storeAbs : Store := { users := [userA], rooms := [], room_users := [], next_room_id := 1 }

/-! Theorems about the claims. -/

/-- Claim C1: the code contradicts the invariant that a room's
`joined_user_count` equals its number of membership rows.  Starting from
a fresh store, `create_room` by user 1 yields room 1 with count 1 and
one membership; a subsequent `join_room` by user 2 returns `Ok` and
inserts a second membership row, yet room 1's `joined_user_count` is
still 1: `_join_room` never updates the `room` row. -/
theorem join_ok_leaves_joined_user_count_stale :
    create_room storeAB "a" 1001 LiveDifficulty.Normal = Except.ok (1, storeAB1) ∧
    join_room storeAB1 "b" 1 LiveDifficulty.Hard = Except.ok (JoinRoomResult.Ok, storeAB2) ∧
    storeAB2.rooms.map RoomRow.joined_user_count = [1] ∧
    (storeAB2.room_users.filter (fun ru => ru.room_id == 1)).length = 2 :=
  ⟨rfl, rfl, rfl, rfl⟩

/-- Claim C2, counterexample: a room that exists but is playing
(`is_playing = true`, with spare capacity) makes `join_room` return
`Disbanded`, not `RoomFull` as the claim states — the room query filters
on `is_playing = false`, so a playing room is indistinguishable from an
absent one. -/
theorem join_playing_room_returns_disbanded :
    join_room storePlaying "a" 1 LiveDifficulty.Normal
      = Except.ok (JoinRoomResult.Disbanded, storePlaying) ∧
    JoinRoomResult.Disbanded ≠ JoinRoomResult.RoomFull :=
  ⟨rfl, by decide⟩

/-- Claim C2, amended: with a resolvable token, when no room row with
the requested id and `is_playing = false` exists (in particular when the
room exists but is playing), `join_room` returns `Disbanded` with the
store unchanged; when such a row exists and its `joined_user_count` has
reached `max_user_count`, `join_room` returns `RoomFull` with the store
unchanged. -/
theorem join_room_ineligible_room (s : Store) (token : String) (rid : Nat)
    (d : LiveDifficulty) (u : SafeUser)
    (hu : get_user_by_token s token = Except.ok (some u)) :
    (s.rooms.filter (fun r => r.room_id == rid && !r.is_playing) = [] →
      join_room s token rid d = Except.ok (JoinRoomResult.Disbanded, s)) ∧
    (∀ r, s.rooms.filter (fun r2 => r2.room_id == rid && !r2.is_playing) = [r] →
      r.joined_user_count ≥ r.max_user_count →
      join_room s token rid d = Except.ok (JoinRoomResult.RoomFull, s)) := by
  constructor
  · intro h
    simp [join_room, hu, h, resultOne]
  · intro r h hge
    simp [join_room, hu, h, resultOne, hge]

/-- Witness for the amended claim C2: joining the full open room of
`storeFull` returns `RoomFull` and leaves the store unchanged. -/
theorem join_room_ineligible_room_witness :
    join_room storeFull "a" 1 LiveDifficulty.Normal
      = Except.ok (JoinRoomResult.RoomFull, storeFull) :=
  (join_room_ineligible_room storeFull "a" 1 LiveDifficulty.Normal
      { id := 1, name := "alice", leader_card_id := 10 } rfl).2
    { room_id := 1, live_id := 5, joined_user_count := 4,
      max_user_count := 4, is_playing := false }
    rfl (by decide)

/-- Claim C3: when the joining user already holds a membership in
another room, the duplicate-membership check finds two rows, so
SQLAlchemy's `.one()` raises `MultipleResultsFound`, which the
`except NoResultFound` clause does not catch — `join_room` raises an
exception instead of returning `OtherError`, contradicting the claim
(and the source's own comment saying two or more rows are also caught). -/
theorem duplicate_join_raises_instead_of_other_error :
    join_room storeDup "b" 2 LiveDifficulty.Normal
      = Except.error PyExc.multipleResultsFound :=
  rfl

/-- Claim C4: the member-entry query of `_wait_room` binds the user
lookup parameter to `room_id` instead of the row's `user_id`, so the
single member of room 2 — user 1, named "alice" — is reported with the
name and leader card of user 2 ("bob"), whose id happens to equal the
room id.  The claim that each entry carries that member's own display
name and leader card id is false on the code. -/
theorem wait_room_reports_wrong_member_name :
    wait_room storeWait "a" 2 = Except.ok
      { status := WaitRoomStatus.Waiting,
        room_user_list := [{ user_id := 1, name := "bob", leader_card_id := 20,
                             select_difficulty := LiveDifficulty.Normal,
                             is_me := true, is_host := true }] } ∧
    storeWait.users.filter (fun u => u.id == 1) = [userA] ∧
    userA.name = "alice" ∧ ("bob" : String) ≠ "alice" :=
  ⟨rfl, rfl, rfl, by decide⟩

/-- Claim C8: with room 1 holding exactly one free slot
(`joined_user_count = 3` of 4), two join attempts serialized in lock
order both return `Ok` — the second is not refused with `RoomFull`,
because `_join_room` never increments `joined_user_count`, so the
capacity check always sees the stale count. -/
theorem two_joins_into_one_slot_both_ok :
    join_room storeNearFull "b" 1 LiveDifficulty.Normal
      = Except.ok (JoinRoomResult.Ok, storeNearFull1) ∧
    join_room storeNearFull1 "c" 1 LiveDifficulty.Normal
      = Except.ok (JoinRoomResult.Ok, storeNearFull2) :=
  ⟨rfl, rfl⟩

/-- Claim C5: with a resolvable token and a room id for which no room
row exists, `wait_room` returns status `Dissolution` with an empty
member list — and no exception, since the value is returned through the
`Except.ok` constructor. -/
theorem wait_room_absent_room_dissolution (s : Store) (token : String) (rid : Nat)
    (u : SafeUser)
    (hu : get_user_by_token s token = Except.ok (some u))
    (hr : ∀ r ∈ s.rooms, r.room_id ≠ rid) :
    wait_room s token rid
      = Except.ok { status := WaitRoomStatus.Dissolution, room_user_list := [] } := by
  have hfil : s.rooms.filter (fun r => r.room_id == rid) = [] := by
    rw [List.filter_eq_nil_iff]
    intro r hmem
    simp [hr r hmem]
  simp [wait_room, hu, hfil, resultOne]

/-- Witness for claim C5: waiting on the nonexistent room 9 of
`storeAbs` returns `Dissolution` with an empty member list. -/
theorem wait_room_absent_room_dissolution_witness :
    wait_room storeAbs "a" 9
      = Except.ok { status := WaitRoomStatus.Dissolution, room_user_list := [] } :=
  wait_room_absent_room_dissolution storeAbs "a" 9
    { id := 1, name := "alice", leader_card_id := 10 } rfl (by decide)

/-- Claim C6: with a resolvable token and a room id for which no room
row exists, `join_room` returns the value `Disbanded` and the store is
returned unchanged (the rollback path). -/
theorem join_room_absent_room_disbanded (s : Store) (token : String) (rid : Nat)
    (d : LiveDifficulty) (u : SafeUser)
    (hu : get_user_by_token s token = Except.ok (some u))
    (hr : ∀ r ∈ s.rooms, r.room_id ≠ rid) :
    join_room s token rid d = Except.ok (JoinRoomResult.Disbanded, s) := by
  have hfil : s.rooms.filter (fun r => r.room_id == rid && !r.is_playing) = [] := by
    rw [List.filter_eq_nil_iff]
    intro r hmem
    simp [hr r hmem]
  simp [join_room, hu, hfil, resultOne]

/-- Witness for claim C6: joining the nonexistent room 9 of `storeAbs`
returns `Disbanded` with the store unchanged. -/
theorem join_room_absent_room_disbanded_witness :
    join_room storeAbs "a" 9 LiveDifficulty.Normal
      = Except.ok (JoinRoomResult.Disbanded, storeAbs) :=
  join_room_absent_room_disbanded storeAbs "a" 9 LiveDifficulty.Normal
    { id := 1, name := "alice", leader_card_id := 10 } rfl (by decide)

/-- Claim C7: `start_room` sets `is_playing` to `true` on every room row
with the given id, unconditionally, and it is idempotent: applying it a
second time to the same room id yields exactly the same store, so
starting an already-playing room is a no-op success (the operation is a
total function with no error path). -/
theorem start_room_sets_playing_and_idempotent (s : Store) (rid : Nat) :
    (∀ r ∈ (start_room s rid).rooms, r.room_id = rid → r.is_playing = true) ∧
    start_room (start_room s rid) rid = start_room s rid := by
  constructor
  · intro r hmem hid
    simp only [start_room, List.mem_map] at hmem
    obtain ⟨a, _, ha⟩ := hmem
    by_cases hb : (a.room_id == rid) = true
    · rw [if_pos hb] at ha
      rw [← ha]
    · rw [if_neg hb] at ha
      subst ha
      exact absurd (beq_iff_eq.mpr hid) hb
  · have hff : ∀ a : RoomRow,
        (fun r : RoomRow =>
            if r.room_id == rid then { r with is_playing := true } else r)
          ((fun r : RoomRow =>
              if r.room_id == rid then { r with is_playing := true } else r) a)
        = (fun r : RoomRow =>
            if r.room_id == rid then { r with is_playing := true } else r) a := by
      intro a
      by_cases hb : (a.room_id == rid) = true <;> simp [hb]
    simp only [start_room]
    congr 1
    rw [List.map_map]
    exact List.map_congr_left (fun a _ => hff a)

/-- Witness for claim C7: starting room 1 of `storeDup` twice yields the
same store as starting it once. -/
theorem start_room_sets_playing_and_idempotent_witness :
    start_room (start_room storeDup 1) 1 = start_room storeDup 1 :=
  (start_room_sets_playing_and_idempotent storeDup 1).2

/-- Claim C9: `start_room` never fails (it is a total function), leaves
the `user` and `room_user` tables and the id counter untouched, keeps
every room row in place, changes no field of any room row other than
`is_playing` of the rows whose id matches, leaves rows with a different
id entirely unchanged, and when no room with the given id exists the
whole store is unchanged. -/
theorem start_room_frame (s : Store) (rid : Nat) :
    (start_room s rid).users = s.users ∧
    (start_room s rid).room_users = s.room_users ∧
    (start_room s rid).next_room_id = s.next_room_id ∧
    (start_room s rid).rooms.length = s.rooms.length ∧
    (∀ i, ∀ hi : i < s.rooms.length, ∀ hi2 : i < (start_room s rid).rooms.length,
      ((start_room s rid).rooms[i].room_id = s.rooms[i].room_id ∧
       (start_room s rid).rooms[i].live_id = s.rooms[i].live_id ∧
       (start_room s rid).rooms[i].joined_user_count = s.rooms[i].joined_user_count ∧
       (start_room s rid).rooms[i].max_user_count = s.rooms[i].max_user_count ∧
       (s.rooms[i].room_id = rid → (start_room s rid).rooms[i].is_playing = true) ∧
       (s.rooms[i].room_id ≠ rid → (start_room s rid).rooms[i] = s.rooms[i]))) ∧
    ((∀ r ∈ s.rooms, r.room_id ≠ rid) → start_room s rid = s) := by
  refine ⟨rfl, rfl, rfl, by simp [start_room], ?_, ?_⟩
  · intro i hi hi2
    have hmap : (start_room s rid).rooms[i]
        = (if s.rooms[i].room_id == rid
            then { s.rooms[i] with is_playing := true } else s.rooms[i]) := by
      simp [start_room]
    by_cases hb : (s.rooms[i].room_id == rid) = true
    · rw [hmap, if_pos hb]
      exact ⟨rfl, rfl, rfl, rfl, fun _ => rfl,
        fun hne => absurd (beq_iff_eq.mp hb) hne⟩
    · rw [hmap, if_neg hb]
      exact ⟨rfl, rfl, rfl, rfl,
        fun h => absurd (beq_iff_eq.mpr h) hb, fun _ => rfl⟩
  · intro hall
    have hmap : s.rooms.map (fun r : RoomRow =>
        if r.room_id == rid then { r with is_playing := true } else r) = s.rooms := by
      have h1 : s.rooms.map (fun r : RoomRow =>
          if r.room_id == rid then { r with is_playing := true } else r)
          = s.rooms.map id :=
        List.map_congr_left (fun a ha => by
          rw [if_neg (by simp [hall a ha])]
          rfl)
      rw [h1, List.map_id]
    simp only [start_room, hmap]

/-- Witness for claim C9: `storeWait` has no room with id 9, so starting
room 9 leaves the store entirely unchanged. -/
theorem start_room_frame_witness : start_room storeWait 9 = storeWait :=
  (start_room_frame storeWait 9).2.2.2.2.2 (by decide)

/-- Claim C10: for a track filter other than the sentinel
`LIVE_ID_NULL`, every room listed by `list_room` is also listed by the
unfiltered `list_room LIVE_ID_NULL` on the same store, and each listing
only contains the projection of a stored room row that is not playing
and has `joined_user_count < max_user_count` (the filtered listing
additionally matching the requested track). -/
theorem list_room_filtered_subset (s : Store) (lid : Nat) (h : lid ≠ LIVE_ID_NULL) :
    (∀ info ∈ list_room s lid, info ∈ list_room s LIVE_ID_NULL) ∧
    (∀ info ∈ list_room s lid, ∃ r ∈ s.rooms, r.is_playing = false ∧
       r.joined_user_count < r.max_user_count ∧ r.live_id = lid ∧
       r.toRoomInfo = info) ∧
    (∀ info ∈ list_room s LIVE_ID_NULL, ∃ r ∈ s.rooms, r.is_playing = false ∧
       r.joined_user_count < r.max_user_count ∧ r.toRoomInfo = info) := by
  have hbeq : (lid == LIVE_ID_NULL) = false := beq_eq_false_iff_ne.mpr h
  refine ⟨?_, ?_, ?_⟩ <;> intro info hinfo
  · simp only [list_room, hbeq, Bool.false_eq_true, if_false, beq_self_eq_true,
      if_true, List.mem_map, List.mem_filter] at hinfo ⊢
    obtain ⟨r, ⟨hrmem, hp⟩, hproj⟩ := hinfo
    refine ⟨r, ⟨hrmem, ?_⟩, hproj⟩
    simp only [Bool.and_eq_true] at hp ⊢
    exact ⟨hp.1.1, hp.2⟩
  · simp only [list_room, hbeq, Bool.false_eq_true, if_false, List.mem_map,
      List.mem_filter] at hinfo
    obtain ⟨r, ⟨hrmem, hp⟩, hproj⟩ := hinfo
    simp only [Bool.and_eq_true, decide_eq_true_eq, beq_iff_eq,
      Bool.not_eq_true'] at hp
    exact ⟨r, hrmem, hp.2, hp.1.1, hp.1.2, hproj⟩
  · simp only [list_room, beq_self_eq_true, if_true, List.mem_map,
      List.mem_filter] at hinfo
    obtain ⟨r, ⟨hrmem, hp⟩, hproj⟩ := hinfo
    simp only [Bool.and_eq_true, decide_eq_true_eq, Bool.not_eq_true'] at hp
    exact ⟨r, hrmem, hp.2, hp.1, hproj⟩

/-- Witness for claim C10: the open, non-playing room 1 of `storeDup`
listed under its own track 5 is also listed by the unfiltered query. -/
theorem list_room_filtered_subset_witness :
    ({ room_id := 1, live_id := 5, joined_user_count := 1,
       max_user_count := 4 } : RoomInfo) ∈ list_room storeDup LIVE_ID_NULL :=
  (list_room_filtered_subset storeDup 5 (by decide)).1
    { room_id := 1, live_id := 5, joined_user_count := 1, max_user_count := 4 }
    (by decide)

end GameServer
